import Mathlib

/-!
Verification development for the options-dashboard snapshot pipeline
(`src/app/api/options/route.ts` and its sibling drafts under `src/unnamed/`).

Modelling conventions:
* JavaScript numbers are modelled by exact rationals (`ℚ`).  Values read from
  JSON payloads are finite, so `Number.isFinite` checks on already-numeric
  values are identically true in the model; floating-point rounding and
  overflow are outside the model's scope.
* A JSON field that may hold a number or a string is an `Option JsVal`
  (`none` models `null`/`undefined`).
* `Number(string)` coercion is modelled by `jsStringToNumber`, following the
  ECMAScript `StringToNumber` semantics restricted to exact arithmetic:
  whitespace trimming, empty string ↦ 0, signed decimal literals with
  optional fraction and exponent, `Infinity`, and `0x`/`0o`/`0b` integer
  literals; anything else is `NaN`.
* Network effects are modelled by passing the server's behaviour as an
  explicit function from URL strings to fetch outcomes; `new URL(...)`
  (including the `ensureApiKey` re-assertion on the parsed URL) is abstracted
  as a `String → Option String` parameter whose `none` models the constructor
  throwing.
-/

set_option maxRecDepth 8192

/-- Result of JavaScript `Number(...)` coercion: a finite rational, a signed
infinity, or `NaN`. -/
inductive JsNumV where
  | fin (q : ℚ)
  | inf
  | negInf
  | nan
deriving DecidableEq

/-- Whitespace characters trimmed by JavaScript `String.prototype.trim` /
`StringToNumber` (the ASCII ones plus NBSP; exotic Unicode spaces are not
modelled). -/
def isJsSpace (c : Char) : Bool :=
  c == ' ' || c == '\t' || c == '\n' || c == '\r' || c == '\x0b' || c == '\x0c' || c == '\xa0'

/-- JavaScript `value.trim()`. -/
def jsTrim (s : String) : String :=
  String.mk (((s.toList.dropWhile isJsSpace).reverse.dropWhile isJsSpace).reverse)

/-- Numeric value of a decimal digit character. -/
def digitVal (c : Char) : ℕ := c.toNat - '0'.toNat

/-- Value of a list of decimal digit characters. -/
def digitsToNat (ds : List Char) : ℕ := ds.foldl (fun a c => a * 10 + digitVal c) 0

/-- Numeric value of a hexadecimal digit character. -/
def hexDigitVal (c : Char) : ℕ :=
  if c.isDigit then digitVal c
  else if decide ('a' ≤ c ∧ c ≤ 'f') then c.toNat - 'a'.toNat + 10
  else c.toNat - 'A'.toNat + 10

/-- Hexadecimal digit predicate. -/
def isHexDigitChar (c : Char) : Bool :=
  c.isDigit || decide ('a' ≤ c ∧ c ≤ 'f') || decide ('A' ≤ c ∧ c ≤ 'F')

/-- Octal digit predicate. -/
def isOctDigitChar (c : Char) : Bool := decide ('0' ≤ c ∧ c ≤ '7')

/-- Binary digit predicate. -/
def isBinDigitChar (c : Char) : Bool := c == '0' || c == '1'

/-- Value of a digit list in base `b` (digits read via `hexDigitVal`). -/
def baseDigitsToNat (b : ℕ) (ds : List Char) : ℕ :=
  ds.foldl (fun a c => a * b + hexDigitVal c) 0

/-- Parse the exponent tail of a decimal literal (`ExponentPart?` followed by
end of input).  `none` means the remaining characters do not form a valid
(possibly empty) exponent part. -/
def parseExponentDigits : List Char → Option ℤ
  | [] => none
  | ds => if ds.all Char.isDigit then some (digitsToNat ds : ℤ) else none

/-- Parse an optional ECMAScript `ExponentPart` that must consume the rest of
the input. -/
def parseExponent : List Char → Option ℤ
  | [] => some 0
  | c :: rest =>
    if c == 'e' || c == 'E' then
      match rest with
      | '+' :: ds => parseExponentDigits ds
      | '-' :: ds => (parseExponentDigits ds).map (fun e => -e)
      | ds => parseExponentDigits ds
    else none

/-- ECMAScript `StrUnsignedDecimalLiteral` (without the `Infinity` case),
consuming the whole input; `none` models `NaN`.  The value
`integer.fraction × 10^exp` is assembled as mantissa × 10^(exp − |fraction|). -/
def parseUnsignedDec (cs : List Char) : Option ℚ :=
  let ip := cs.takeWhile Char.isDigit
  let r1 := cs.dropWhile Char.isDigit
  match r1 with
  | '.' :: r2 =>
    let fp := r2.takeWhile Char.isDigit
    let r3 := r2.dropWhile Char.isDigit
    if ip.isEmpty && fp.isEmpty then none
    else
      match parseExponent r3 with
      | some e => some ((digitsToNat (ip ++ fp) : ℚ) * (10 : ℚ) ^ (e - fp.length))
      | none => none
  | _ =>
    if ip.isEmpty then none
    else
      match parseExponent r1 with
      | some e => some ((digitsToNat ip : ℚ) * (10 : ℚ) ^ e)
      | none => none

/-- ECMAScript `StrDecimalLiteral`: optional sign, then `Infinity` or an
unsigned decimal literal. -/
def parseSignedDec (cs : List Char) : JsNumV :=
  let core : List Char → Bool → JsNumV := fun body neg =>
    if body = "Infinity".toList then (if neg then JsNumV.negInf else JsNumV.inf)
    else
      match parseUnsignedDec body with
      | some q => JsNumV.fin (if neg then -q else q)
      | none => JsNumV.nan
  match cs with
  | '+' :: rest => core rest false
  | '-' :: rest => core rest true
  | _ => core cs false

/-- ECMAScript `StrNumericLiteral` on an already-trimmed character list:
empty ↦ 0, `0x`/`0o`/`0b` non-decimal integer literals, else a signed decimal
literal. -/
def parseStrNumeric (cs : List Char) : JsNumV :=
  match cs with
  | [] => JsNumV.fin 0
  | '0' :: c :: rest =>
    if c == 'x' || c == 'X' then
      if !rest.isEmpty && rest.all isHexDigitChar then JsNumV.fin (baseDigitsToNat 16 rest : ℚ)
      else JsNumV.nan
    else if c == 'o' || c == 'O' then
      if !rest.isEmpty && rest.all isOctDigitChar then JsNumV.fin (baseDigitsToNat 8 rest : ℚ)
      else JsNumV.nan
    else if c == 'b' || c == 'B' then
      if !rest.isEmpty && rest.all isBinDigitChar then JsNumV.fin (baseDigitsToNat 2 rest : ℚ)
      else JsNumV.nan
    else parseSignedDec cs
  | _ => parseSignedDec cs

/-- JavaScript `Number(s)` for a string argument. -/
def jsStringToNumber (s : String) : JsNumV := parseStrNumeric (jsTrim s).toList

/-- A JSON value appearing in a `number | string` typed field. -/
inductive JsVal where
  | num (q : ℚ)
  | str (s : String)
deriving DecidableEq

/-- `parseNumber` from `src/app/api/options/route.ts` (also in
`src/unnamed/part_000` and `src/unnamed/part_002`): `null`/`undefined` ↦
absent, strings via `Number(...)`, and a final `Number.isFinite` check (always
true for the already-finite rationals of the model). -/
def parseNumber : Option JsVal → Option ℚ
  | none => none
  | some (JsVal.num q) => some q
  | some (JsVal.str s) =>
    match jsStringToNumber s with
    | JsNumV.fin q => some q
    | _ => none

/-- Characters kept by the second regex of `sanitizeNumericString`
(`[0-9eE+\-.]`). -/
def allowedNumericChar (c : Char) : Bool :=
  c.isDigit || c == 'e' || c == 'E' || c == '+' || c == '-' || c == '.'

/-- `sanitizeNumericString` from `src/unnamed/part_001`: trim, drop `$` and
`,`, then drop every character outside `[0-9eE+\-.]`. -/
def sanitizeNumericString (s : String) : String :=
  let trimmed := jsTrim s
  if trimmed = "" then ""
  else
    let stripped := trimmed.toList.filter (fun c => !(c == ',' || c == '$'))
    let cleaned := stripped.filter allowedNumericChar
    String.mk cleaned

/-- The sanitizing `parseNumber` from `src/unnamed/part_001` (renamed to avoid
clashing with the plain variant): numbers pass through the finiteness check;
strings are sanitized, syntactically incomplete results are rejected, and the
remainder goes through `Number(...)`. -/
def parseNumberSanitized : Option JsVal → Option ℚ
  | none => none
  | some (JsVal.num q) => some q
  | some (JsVal.str s) =>
    let sanitized := sanitizeNumericString s
    if sanitized = "" || sanitized = "-" || sanitized = "." || sanitized = "-." || sanitized = "+" then
      none
    else
      match jsStringToNumber sanitized with
      | JsNumV.fin q => some q
      | _ => none


/-- `last_trade` sub-object of an underlying snapshot (`price`, `p`). -/
structure LastTradeObj where
  price : Option JsVal
  p : Option JsVal
deriving DecidableEq

/-- `day` sub-object (superset of the aliases the drafts read:
`close`, `c`, `last`, `last_price`, `price`, plus the `day_close` base field
of `MassiveDaySnapshot`). -/
structure DayObj where
  close : Option JsVal
  c : Option JsVal
  last : Option JsVal
  last_price : Option JsVal
  price : Option JsVal
  day_close : Option JsVal
deriving DecidableEq

/-- `last_quote` sub-object of an underlying snapshot. -/
structure UnderlyingQuoteObj where
  bid : Option JsVal
  bid_price : Option JsVal
  ask : Option JsVal
  ask_price : Option JsVal
  mid : Option JsVal
  midpoint : Option JsVal
deriving DecidableEq

/-- `MassiveUnderlyingSnapshot` / `MassiveDaySnapshot`: a price-bearing
snapshot object.  Fields that exist only on one of the two TypeScript shapes
are `none` on values of the other shape; `parseNumber none = none`, so this
matches the behaviour of the conditional `"field" in snapshot` pushes. -/
structure PriceSnapshot where
  price : Option JsVal
  last_price : Option JsVal
  close : Option JsVal
  day_close : Option JsVal
  c : Option JsVal
  last : Option JsVal
  last_trade : Option LastTradeObj
  day : Option DayObj
  last_quote : Option UnderlyingQuoteObj
deriving DecidableEq

/-- `details` sub-object of an option contract row. -/
structure OptionDetails where
  contract_type : Option String
  expiration_date : Option String
  strike_price : Option JsVal
  ticker : Option String
deriving DecidableEq

/-- `last_quote` sub-object of an option contract row (superset variant). -/
structure RowQuoteObj where
  bid : Option JsVal
  ask : Option JsVal
  bid_price : Option JsVal
  ask_price : Option JsVal
  mid : Option JsVal
  midpoint : Option JsVal
  mark : Option JsVal
  mark_price : Option JsVal
deriving DecidableEq

/-- `last_trade` sub-object of an option contract row. -/
structure RowTradeObj where
  price : Option JsVal
deriving DecidableEq

/-- `MassiveOptionRow`: one contract row of an options-chain page. -/
structure MassiveOptionRow where
  details : Option OptionDetails
  break_even_price : Option JsVal
  last_quote : Option RowQuoteObj
  last_trade : Option RowTradeObj
  underlying_asset : Option PriceSnapshot
  day : Option DayObj
deriving DecidableEq

/-- One page of the options-chain endpoint
(`{ results?, next_url?, underlying_asset? }`). -/
structure MassiveResponse where
  results : Option (List MassiveOptionRow)
  next_url : Option String
  underlying_asset : Option PriceSnapshot
deriving DecidableEq

/-- `firstNumber` from `src/unnamed/part_001` / the quote-first pipeline:
first candidate that `parseNumber` accepts. -/
def firstNumber : List (Option JsVal) → Option ℚ
  | [] => none
  | v :: rest =>
    match parseNumber v with
    | some q => some q
    | none => firstNumber rest

/-- JavaScript `a ?? b` for string options combined with `||` semantics used
at `row.details?.ticker?.trim() || ticker`: an absent or empty string falls
back to the default. -/
def jsOrElseStr (v : Option String) (dflt : String) : String :=
  match v with
  | some s => if s = "" then dflt else s
  | none => dflt

/-- `row.details?.contract_type?.toLowerCase() === "call"`. -/
def isCallRow (row : MassiveOptionRow) : Bool :=
  match row.details.bind (fun d => d.contract_type) with
  | some s => s.toLower == "call"
  | none => false

/-- `spotForIntrinsic = underlyingPrice ?? 0` (legacy pipelines): an absent
underlying price is degraded to `0` rather than an error. -/
def spotForIntrinsic (underlyingPrice : Option ℚ) : ℚ :=
  underlyingPrice.getD 0

/-- Premium selection chain shared by `src/unnamed/part_001:362-373`,
`src/unnamed/part_002:447-458` and `src/app/api/options/route.ts:546-557`
(quote-first variant): `(bid+ask)/2` only when both sides parsed, else mid,
else last trade, else day close, else provider break-even minus strike. -/
def selectPremium (bid ask mid lastTrade dayClose breakEvenApi : Option ℚ)
    (strike : ℚ) : Option ℚ :=
  match bid, ask with
  | some b, some a => some ((b + a) / 2)
  | _, _ =>
    match mid with
    | some m => some m
    | none =>
      match lastTrade with
      | some p => some p
      | none =>
        match dayClose with
        | some d => some d
        | none =>
          match breakEvenApi with
          | some be => some (be - strike)
          | none => none

/-- `parseNumber(row.details?.strike_price)`. -/
def rowStrike (row : MassiveOptionRow) : Option ℚ :=
  parseNumber (row.details.bind (fun d => d.strike_price))

/-- `firstNumber([row.last_quote?.bid, row.last_quote?.bid_price])`. -/
def rowBid (row : MassiveOptionRow) : Option ℚ :=
  firstNumber [row.last_quote.bind (fun q => q.bid), row.last_quote.bind (fun q => q.bid_price)]

/-- `firstNumber([row.last_quote?.ask, row.last_quote?.ask_price])`. -/
def rowAsk (row : MassiveOptionRow) : Option ℚ :=
  firstNumber [row.last_quote.bind (fun q => q.ask), row.last_quote.bind (fun q => q.ask_price)]

/-- `firstNumber([mid, midpoint, mark, mark_price])` of the row quote. -/
def rowMid (row : MassiveOptionRow) : Option ℚ :=
  firstNumber [row.last_quote.bind (fun q => q.mid), row.last_quote.bind (fun q => q.midpoint),
    row.last_quote.bind (fun q => q.mark), row.last_quote.bind (fun q => q.mark_price)]

/-- `parseNumber(row.last_trade?.price)`. -/
def rowLastTrade (row : MassiveOptionRow) : Option ℚ :=
  parseNumber (row.last_trade.bind (fun t => t.price))

/-- `firstNumber([row.day?.close, row.day?.c, row.day?.last, row.day?.price,
row.day?.last_price])`. -/
def rowDayClose (row : MassiveOptionRow) : Option ℚ :=
  firstNumber [row.day.bind (fun d => d.close), row.day.bind (fun d => d.c),
    row.day.bind (fun d => d.last), row.day.bind (fun d => d.price),
    row.day.bind (fun d => d.last_price)]

/-- `parseNumber(row.break_even_price)`. -/
def rowBreakEven (row : MassiveOptionRow) : Option ℚ :=
  parseNumber row.break_even_price

/-- The premium chosen for a row with parsed strike `strike`. -/
def rowPremium (row : MassiveOptionRow) (strike : ℚ) : Option ℚ :=
  selectPremium (rowBid row) (rowAsk row) (rowMid row) (rowLastTrade row)
    (rowDayClose row) (rowBreakEven row) strike

/-- An emitted `OptionPoint` (`src/types/options.ts`). -/
structure OptionPoint where
  ticker : String
  strike : ℚ
  expiration : String
  premium : ℚ
  intrinsic : ℚ
  extrinsic : ℚ
  breakEven : ℚ
  target2x : ℚ
  target3x : ℚ
deriving DecidableEq

/-- The object pushed onto `options` for a retained row (common to all
drafts): break-even falls back to `strike + premium`, intrinsic and extrinsic
are clamped at zero, payoff targets are `strike + N·premium`. -/
def mkOptionPoint (reqTicker : String) (spot strike premium : ℚ)
    (row : MassiveOptionRow) : OptionPoint :=
  { ticker := jsOrElseStr ((row.details.bind (fun d => d.ticker)).map jsTrim) reqTicker
    strike := strike
    expiration := jsOrElseStr (row.details.bind (fun d => d.expiration_date)) ""
    premium := premium
    intrinsic := max (spot - strike) 0
    extrinsic := max (premium - max (spot - strike) 0) 0
    breakEven :=
      match rowBreakEven row with
      | some be => be
      | none => strike + premium
    target2x := strike + 2 * premium
    target3x := strike + 3 * premium }

/-- Per-row valuation of the legacy pipelines (`src/unnamed/part_002:423-479`,
`src/unnamed/part_001:338-394`): rows without a parseable strike or without a
premium are discarded (`none`); the `Number.isFinite(premium)` part of the
guard is identically true over exact rationals. -/
def valuateRowLegacy (reqTicker : String) (spot : ℚ)
    (row : MassiveOptionRow) : Option OptionPoint :=
  match rowStrike row with
  | none => none
  | some strike =>
    match rowPremium row strike with
    | none => none
    | some premium => some (mkOptionPoint reqTicker spot strike premium row)

/-- Per-row valuation of the quote-first pipeline
(`src/app/api/options/route.ts:522-579`): identical to the legacy valuation
except that the guard also discards a negative chosen premium
(`premium < 0`). -/
def valuateRowQF (reqTicker : String) (spot : ℚ)
    (row : MassiveOptionRow) : Option OptionPoint :=
  match rowStrike row with
  | none => none
  | some strike =>
    match rowPremium row strike with
    | none => none
    | some premium =>
      if premium < 0 then none
      else some (mkOptionPoint reqTicker spot strike premium row)

/-- Characterization of a retained row under the legacy valuation. -/
theorem valuateRowLegacy_eq_some {req : String} {spot : ℚ} {row : MassiveOptionRow}
    {pt : OptionPoint} (h : valuateRowLegacy req spot row = some pt) :
    ∃ strike premium, rowStrike row = some strike ∧ rowPremium row strike = some premium ∧
      pt = mkOptionPoint req spot strike premium row := by
  cases hs : rowStrike row with
  | none => simp [valuateRowLegacy, hs] at h
  | some strike =>
    cases hp : rowPremium row strike with
    | none => simp [valuateRowLegacy, hs, hp] at h
    | some premium =>
      simp only [valuateRowLegacy, hs, hp, Option.some.injEq] at h
      exact ⟨strike, premium, rfl, hp, h.symm⟩

/-- C1: every valued contract of the legacy valuation satisfies
`intrinsic = max(spot − strike, 0)` and `extrinsic = max(premium − intrinsic, 0)`,
hence both are nonnegative; an absent underlying price is degraded to spot 0
(`spotForIntrinsic`), under which the intrinsic value of every (nonnegative)
strike collapses to 0 — the valuation stays total, no error is raised. -/
theorem c1_valuation_intrinsic_extrinsic
    (reqTicker : String) (up : Option ℚ) (row : MassiveOptionRow) (pt : OptionPoint)
    (h : valuateRowLegacy reqTicker (spotForIntrinsic up) row = some pt) :
    pt.intrinsic = max (spotForIntrinsic up - pt.strike) 0 ∧
    pt.extrinsic = max (pt.premium - pt.intrinsic) 0 ∧
    0 ≤ pt.intrinsic ∧ 0 ≤ pt.extrinsic ∧
    (up = none → 0 ≤ pt.strike → pt.intrinsic = 0) := by
  obtain ⟨strike, premium, hs, hp, rfl⟩ := valuateRowLegacy_eq_some h
  refine ⟨rfl, rfl, le_max_right _ _, le_max_right _ _, ?_⟩
  intro hnone hstrike
  subst hnone
  show max (spotForIntrinsic none - strike) 0 = 0
  have hle : spotForIntrinsic none - strike ≤ 0 := by
    simp only [spotForIntrinsic, Option.getD_none]
    have : (0 : ℚ) ≤ strike := hstrike
    linarith
  exact max_eq_right hle

/-- Concrete retained row for the C1 witness. -/
def c1Row : MassiveOptionRow :=
  ⟨some ⟨some "call", some "2026-01-16", some (JsVal.num 5), none⟩, none,
    some ⟨some (JsVal.num 1), some (JsVal.num 1), none, none, none, none, none, none⟩,
    none, none, none⟩

/-- Value produced for `c1Row` with an absent underlying price. -/
def c1Point : OptionPoint :=
  { ticker := "AAPL", strike := 5, expiration := "2026-01-16", premium := 1,
    intrinsic := 0, extrinsic := 1, breakEven := 6, target2x := 7, target3x := 8 }

/-- Witness for C1 at a concrete contract with an absent spot price. -/
theorem c1_witness :
    c1Point.intrinsic = max (spotForIntrinsic none - c1Point.strike) 0 ∧
    c1Point.extrinsic = max (c1Point.premium - c1Point.intrinsic) 0 ∧
    0 ≤ c1Point.intrinsic ∧ 0 ≤ c1Point.extrinsic ∧ c1Point.intrinsic = 0 :=
  have h : valuateRowLegacy "AAPL" (spotForIntrinsic none) c1Row = some c1Point := by
    with_unfolding_all decide
  have main := c1_valuation_intrinsic_extrinsic "AAPL" none c1Row c1Point h
  ⟨main.1, main.2.1, main.2.2.1, main.2.2.2.1,
    main.2.2.2.2 rfl (by with_unfolding_all decide)⟩

/-- C2: the premium selection chain tries, in order, `(bid+ask)/2` (only when
both sides parsed), mid/mark, last trade, day close, provider break-even minus
strike; the first success fully determines the result (the later candidates
are universally quantified, so they are never consulted). -/
theorem c2_premium_priority_order
    (bid ask mid lastTrade dayClose breakEvenApi : Option ℚ) (strike : ℚ) :
    (∀ b a, bid = some b → ask = some a →
      selectPremium bid ask mid lastTrade dayClose breakEvenApi strike = some ((b + a) / 2)) ∧
    ((bid = none ∨ ask = none) →
      (∀ m, mid = some m →
        selectPremium bid ask mid lastTrade dayClose breakEvenApi strike = some m) ∧
      (mid = none →
        (∀ p, lastTrade = some p →
          selectPremium bid ask mid lastTrade dayClose breakEvenApi strike = some p) ∧
        (lastTrade = none →
          (∀ d, dayClose = some d →
            selectPremium bid ask mid lastTrade dayClose breakEvenApi strike = some d) ∧
          (dayClose = none →
            (∀ be, breakEvenApi = some be →
              selectPremium bid ask mid lastTrade dayClose breakEvenApi strike =
                some (be - strike)) ∧
            (breakEvenApi = none →
              selectPremium bid ask mid lastTrade dayClose breakEvenApi strike = none))))) ∧
    (∀ (row : MassiveOptionRow) (k : ℚ),
      rowPremium row k = selectPremium (rowBid row) (rowAsk row) (rowMid row)
        (rowLastTrade row) (rowDayClose row) (rowBreakEven row) k) := by
  refine ⟨?_, ?_, fun _ _ => rfl⟩ <;>
  · cases bid <;> cases ask <;> cases mid <;> cases lastTrade <;> cases dayClose <;>
      cases breakEvenApi <;> simp [selectPremium]

/-- Witness for C2: a live two-sided quote (5, 7) wins over a present mid of
99 and a present last trade of 42, yielding premium 6. -/
theorem c2_witness :
    selectPremium (some 5) (some 7) (some 99) (some 42) none none 100 = some 6 :=
  have h := (c2_premium_priority_order (some 5) (some 7) (some 99) (some 42)
    none none 100).1 5 7 rfl rfl
  by rw [h]; norm_num

/-- C3: in the quote-first valuation, a row whose premium chain yields nothing,
or yields a negative premium, is discarded (`none`, not an error), and every
retained contract has a nonnegative premium. -/
theorem c3_invalid_premium_discarded
    (reqTicker : String) (spot : ℚ) (row : MassiveOptionRow) :
    (∀ strike, rowStrike row = some strike →
      (rowPremium row strike = none → valuateRowQF reqTicker spot row = none) ∧
      (∀ p, rowPremium row strike = some p → p < 0 →
        valuateRowQF reqTicker spot row = none)) ∧
    (∀ pt, valuateRowQF reqTicker spot row = some pt → 0 ≤ pt.premium) := by
  constructor
  · intro strike hs
    constructor
    · intro hp
      simp [valuateRowQF, hs, hp]
    · intro p hp hneg
      simp [valuateRowQF, hs, hp, if_pos hneg]
  · intro pt h
    cases hs : rowStrike row with
    | none => simp [valuateRowQF, hs] at h
    | some strike =>
      cases hp : rowPremium row strike with
      | none => simp [valuateRowQF, hs, hp] at h
      | some premium =>
        simp only [valuateRowQF, hs, hp] at h
        by_cases hneg : premium < 0
        · rw [if_pos hneg] at h; exact absurd h (by simp)
        · rw [if_neg hneg] at h
          have hpt := (Option.some.inj h).symm
          subst hpt
          exact le_of_not_lt hneg

/-- Concrete row with a negative chosen premium for the C3 witness. -/
def c3Row : MassiveOptionRow :=
  ⟨some ⟨some "call", some "2026-01-16", some (JsVal.num 5), none⟩, none,
    some ⟨some (JsVal.num (-2)), some (JsVal.num (-2)), none, none, none, none, none, none⟩,
    none, none, none⟩

/-- Witness for C3: the concrete negative-premium row is discarded. -/
theorem c3_witness : valuateRowQF "AAPL" 10 c3Row = none :=
  ((c3_invalid_premium_discarded "AAPL" 10 c3Row).1 5 (by with_unfolding_all decide)).2
    (-2) (by with_unfolding_all decide) (by norm_num)

theorem dollarSanitize : sanitizeNumericString "$1,234.50" = "1234.50" := by decide

theorem dollarToList : "1234.50".toList = ['1', '2', '3', '4', '.', '5', '0'] := by decide

theorem dollarTrim : jsTrim "1234.50" = "1234.50" := by decide

theorem dollarTakeOne : List.takeWhile Char.isDigit ['1', '2', '3', '4', '.', '5', '0'] =
    ['1', '2', '3', '4'] := by decide

theorem dollarDropOne : List.dropWhile Char.isDigit ['1', '2', '3', '4', '.', '5', '0'] =
    ['.', '5', '0'] := by decide

theorem dollarTakeTwo : List.takeWhile Char.isDigit ['5', '0'] = ['5', '0'] := by decide

theorem dollarDropTwo : List.dropWhile Char.isDigit ['5', '0'] = [] := by decide

theorem dollarMantissa : digitsToNat (['1', '2', '3', '4'] ++ ['5', '0']) = 123450 := by decide

theorem dollarUnsignedDec :
    parseUnsignedDec ['1', '2', '3', '4', '.', '5', '0'] = some (2469 / 2) := by
  unfold parseUnsignedDec
  simp only [dollarTakeOne, dollarDropOne, dollarTakeTwo, dollarDropTwo, dollarMantissa,
    parseExponent, List.length_cons, List.length_nil]
  norm_num

theorem dollarSignedDec :
    parseSignedDec ['1', '2', '3', '4', '.', '5', '0'] = JsNumV.fin (2469 / 2) := by
  unfold parseSignedDec
  simp only [dollarUnsignedDec]
  norm_num
  rfl

theorem dollarStrNumeric :
    parseStrNumeric ['1', '2', '3', '4', '.', '5', '0'] = JsNumV.fin (2469 / 2) := by
  rw [show parseStrNumeric ['1', '2', '3', '4', '.', '5', '0'] =
    parseSignedDec ['1', '2', '3', '4', '.', '5', '0'] from rfl, dollarSignedDec]

theorem dollarNumber : jsStringToNumber "1234.50" = JsNumV.fin (2469 / 2) := by
  rw [jsStringToNumber, dollarTrim, dollarToList, dollarStrNumeric]

theorem dollarParsed :
    parseNumberSanitized (some (JsVal.str "$1,234.50")) = some (2469 / 2) := by
  simp only [parseNumberSanitized, dollarSanitize, dollarNumber]
  norm_num
  intro h
  exact absurd h (by decide)

/-- C4: `sanitizeNumericString` keeps only characters in `[0-9eE+\-.]`;
empty or syntactically incomplete sanitized results are rejected as absent
(never an exception — the parser is total); any other sanitized string is
parsed as a decimal number via `Number(...)`, absent unless finite; `"N/A"`
and `"-"` parse to absent and the currency-formatted `"$1,234.50"` parses to
`1234.5`. -/
theorem c4_parse_number_sanitization :
    (∀ s : String, (sanitizeNumericString s).toList.all allowedNumericChar = true) ∧
    (∀ s : String,
      (sanitizeNumericString s = "" ∨ sanitizeNumericString s = "-" ∨
        sanitizeNumericString s = "." ∨ sanitizeNumericString s = "-." ∨
        sanitizeNumericString s = "+") →
      parseNumberSanitized (some (JsVal.str s)) = none) ∧
    (∀ s : String,
      ¬(sanitizeNumericString s = "" ∨ sanitizeNumericString s = "-" ∨
        sanitizeNumericString s = "." ∨ sanitizeNumericString s = "-." ∨
        sanitizeNumericString s = "+") →
      parseNumberSanitized (some (JsVal.str s)) =
        match jsStringToNumber (sanitizeNumericString s) with
        | JsNumV.fin q => some q
        | _ => none) ∧
    parseNumberSanitized (some (JsVal.str "N/A")) = none ∧
    parseNumberSanitized (some (JsVal.str "-")) = none ∧
    parseNumberSanitized (some (JsVal.str "$1,234.50")) = some (2469 / 2) := by
  refine ⟨?_, ?_, ?_, ?_, ?_, dollarParsed⟩
  · intro s
    unfold sanitizeNumericString
    by_cases htrim : jsTrim s = ""
    · simp [htrim]
    · simp only [htrim, if_neg]
      rw [List.all_eq_true]
      intro x hx
      exact (List.mem_filter.mp hx).2
  · intro s h
    rcases h with h | h | h | h | h <;> simp [parseNumberSanitized, h]
  · intro s h
    push_neg at h
    obtain ⟨h1, h2, h3, h4, h5⟩ := h
    simp [parseNumberSanitized, h1, h2, h3, h4, h5]
  · with_unfolding_all decide
  · with_unfolding_all decide

/-- Witness for C4: the sanitizer output of `"abc"` is within the allowed
alphabet and, being empty, parses to absent. -/
theorem c4_witness :
    (sanitizeNumericString "abc").toList.all allowedNumericChar = true ∧
    parseNumberSanitized (some (JsVal.str "abc")) = none :=
  ⟨c4_parse_number_sanitization.1 "abc",
    c4_parse_number_sanitization.2.1 "abc" (Or.inl (by with_unfolding_all decide))⟩

/-- `row.underlying_asset?.last_trade?.price`. -/
def uaLastTradePrice (row : MassiveOptionRow) : Option JsVal :=
  (row.underlying_asset.bind (fun u => u.last_trade)).bind (fun t => t.price)

/-- `row.underlying_asset?.day?.close`. -/
def uaDayClose (row : MassiveOptionRow) : Option JsVal :=
  (row.underlying_asset.bind (fun u => u.day)).bind (fun d => d.close)

/-- `row.underlying_asset?.last_quote?.bid`. -/
def uaQuoteBid (row : MassiveOptionRow) : Option JsVal :=
  (row.underlying_asset.bind (fun u => u.last_quote)).bind (fun q => q.bid)

/-- `row.underlying_asset?.last_quote?.ask`. -/
def uaQuoteAsk (row : MassiveOptionRow) : Option JsVal :=
  (row.underlying_asset.bind (fun u => u.last_quote)).bind (fun q => q.ask)

/-- `pickUnderlyingPrice` from `src/unnamed/part_000:45-60`: last-trade price,
else day close, else quote bid, else quote ask — each attempted with
`parseNumber`, first success returned. -/
def pickUnderlyingPrice (row : MassiveOptionRow) : Option ℚ :=
  match parseNumber (uaLastTradePrice row) with
  | some p => some p
  | none =>
    match parseNumber (uaDayClose row) with
    | some p => some p
    | none =>
      match parseNumber (uaQuoteBid row) with
      | some p => some p
      | none => parseNumber (uaQuoteAsk row)

/-- C5: the underlying-price resolver short-circuits on the first candidate
that parses, in the fixed order last-trade price, day close, bid, ask; in
particular when both `last_trade.price` and `day.close` parse it returns the
last-trade value, and an absent snapshot resolves to absent. -/
theorem c5_underlying_resolver_priority (row : MassiveOptionRow) :
    (∀ p, parseNumber (uaLastTradePrice row) = some p →
      pickUnderlyingPrice row = some p) ∧
    (∀ c, parseNumber (uaLastTradePrice row) = none →
      parseNumber (uaDayClose row) = some c → pickUnderlyingPrice row = some c) ∧
    (∀ b, parseNumber (uaLastTradePrice row) = none →
      parseNumber (uaDayClose row) = none → parseNumber (uaQuoteBid row) = some b →
      pickUnderlyingPrice row = some b) ∧
    (parseNumber (uaLastTradePrice row) = none → parseNumber (uaDayClose row) = none →
      parseNumber (uaQuoteBid row) = none →
      pickUnderlyingPrice row = parseNumber (uaQuoteAsk row)) ∧
    (∀ p c, parseNumber (uaLastTradePrice row) = some p →
      parseNumber (uaDayClose row) = some c → pickUnderlyingPrice row = some p) ∧
    (row.underlying_asset = none → pickUnderlyingPrice row = none) := by
  refine ⟨?_, ?_, ?_, ?_, ?_, ?_⟩
  · intro p h
    simp [pickUnderlyingPrice, h]
  · intro c h1 h2
    simp [pickUnderlyingPrice, h1, h2]
  · intro b h1 h2 h3
    simp [pickUnderlyingPrice, h1, h2, h3]
  · intro h1 h2 h3
    simp [pickUnderlyingPrice, h1, h2, h3]
  · intro p c h1 _
    simp [pickUnderlyingPrice, h1]
  · intro h
    simp [pickUnderlyingPrice, uaLastTradePrice, uaDayClose, uaQuoteBid, uaQuoteAsk, h,
      parseNumber]

/-- Concrete row for the C5 witness: both a last-trade price (`101`) and a
day close (`99`) are present and parseable. -/
def c5Row : MassiveOptionRow :=
  ⟨none, none, none, none,
    some ⟨none, none, none, none, none, none,
      some ⟨some (JsVal.num 101), none⟩,
      some ⟨some (JsVal.num 99), none, none, none, none, none⟩,
      some ⟨some (JsVal.num 98), none, some (JsVal.num 102), none, none, none⟩⟩,
    none⟩

/-- Witness for C5: the resolver returns the last-trade value `101`. -/
theorem c5_witness : pickUnderlyingPrice c5Row = some 101 :=
  (c5_underlying_resolver_priority c5Row).2.2.2.2.1 101 99
    (by with_unfolding_all decide) (by with_unfolding_all decide)

/-- `expirationCandidates`: every string-typed `details.expiration_date` of the
accumulated rows (`rows.flatMap`). -/
def expirationCandidates (rows : List MassiveOptionRow) : List String :=
  rows.flatMap (fun row =>
    match row.details.bind (fun d => d.expiration_date) with
    | some e => [e]
    | none => [])

/-- `validExpirations`: candidates on/after today (lexicographic ISO
comparison), deduplicated (`new Set`), sorted ascending, first 10 kept.  The
model sorts with insertion sort; on the deduplicated input the sorted
permutation is unique, so this agrees with JavaScript `Array.prototype.sort`. -/
def validExpirations (rows : List MassiveOptionRow) (today : String) : List String :=
  (List.insertionSort (fun a b => a ≤ b)
    (((expirationCandidates rows).filter (fun d => decide (today ≤ d))).dedup)).take 10

/-- `selected`: rows with a truthy expiration date contained in
`validExpirations`. -/
def selectedRows (rows : List MassiveOptionRow) (today : String) : List MassiveOptionRow :=
  rows.filter (fun row =>
    match row.details.bind (fun d => d.expiration_date) with
    | some e => !(e == "") && decide (e ∈ validExpirations rows today)
    | none => false)

/-- The options list produced by the legacy pipeline for the accumulated rows:
each selected row valued with `spotForIntrinsic` of the resolved underlying
price. -/
def processedOptionsLegacy (rows : List MassiveOptionRow) (today reqTicker : String)
    (up : Option ℚ) : List OptionPoint :=
  (selectedRows rows today).filterMap (valuateRowLegacy reqTicker (spotForIntrinsic up))

/-- C6: the returned expiration list has at most 10 entries (hence also at
most 20), is strictly ascending, every entry is on/after the request-time
today, and every emitted contract's expiration belongs to it. -/
theorem c6_expirations_bounded_sorted (rows : List MassiveOptionRow)
    (today reqTicker : String) (up : Option ℚ) :
    (validExpirations rows today).length ≤ 10 ∧
    List.Sorted (fun a b => a < b) (validExpirations rows today) ∧
    (∀ d, d ∈ validExpirations rows today → today ≤ d) ∧
    (∀ pt, pt ∈ processedOptionsLegacy rows today reqTicker up →
      pt.expiration ∈ validExpirations rows today) := by
  refine ⟨?_, ?_, ?_, ?_⟩
  · simp [validExpirations, List.length_take]
  · have hsorted : List.Sorted (fun a b : String => a ≤ b)
        (List.insertionSort (fun a b => a ≤ b)
          (((expirationCandidates rows).filter (fun d => decide (today ≤ d))).dedup)) :=
      List.sorted_insertionSort _ _
    have hnodup : (List.insertionSort (fun a b : String => a ≤ b)
        (((expirationCandidates rows).filter (fun d => decide (today ≤ d))).dedup)).Nodup :=
      (List.perm_insertionSort _ _).nodup_iff.mpr (List.nodup_dedup _)
    have hlt := hsorted.lt_of_le hnodup
    exact List.Pairwise.sublist (List.take_sublist _ _) hlt
  · intro d hd
    have hmem : d ∈ List.insertionSort (fun a b : String => a ≤ b)
        (((expirationCandidates rows).filter (fun d => decide (today ≤ d))).dedup) :=
      (List.take_sublist _ _).subset hd
    have hfil : d ∈ (expirationCandidates rows).filter (fun d => decide (today ≤ d)) :=
      (List.mem_dedup).mp ((List.mem_insertionSort _).mp hmem)
    exact of_decide_eq_true (List.mem_filter.mp hfil).2
  · intro pt hpt
    obtain ⟨row, hrow, hval⟩ := List.mem_filterMap.mp hpt
    obtain ⟨hrowmem, hpred⟩ := List.mem_filter.mp hrow
    obtain ⟨strike, premium, hs, hp, rfl⟩ := valuateRowLegacy_eq_some hval
    cases hexp : row.details.bind (fun d => d.expiration_date) with
    | none => simp [hexp] at hpred
    | some e =>
      simp only [hexp, Bool.and_eq_true, bne_iff_ne, decide_eq_true_eq] at hpred
      have hne : e ≠ "" := by simpa using hpred.1
      have hin : e ∈ validExpirations rows today := hpred.2
      show (mkOptionPoint reqTicker (spotForIntrinsic up) strike premium row).expiration ∈ _
      simp only [mkOptionPoint, jsOrElseStr, hexp]
      rw [if_neg hne]
      exact hin

/-- Witness for C6 at a one-row chain: the single expiration is on/after
today and the single produced contract's expiration is in the selected set. -/
theorem c6_witness :
    ("2026-01-01" : String) ≤ "2026-01-16" ∧
    c1Point.expiration ∈ validExpirations [c1Row] "2026-01-01" :=
  have main := c6_expirations_bounded_sorted [c1Row] "2026-01-01" "AAPL" none
  ⟨main.2.2.1 "2026-01-16" (by with_unfolding_all decide),
    main.2.2.2 c1Point (by with_unfolding_all decide)⟩

/-- `pickUnderlyingPrice` from `src/app/api/options/route.ts:68-114` (first
pipeline): the candidate fields in push order.  Conditional `"field" in
snapshot` pushes are modelled by unconditional candidates, since an absent
field parses to `none` and is skipped either way. -/
def pickUnderlyingPriceRt (snapshot : Option PriceSnapshot) : Option ℚ :=
  match snapshot with
  | none => none
  | some s =>
    firstNumber [s.price, s.last_price, s.close, s.day_close, s.c, s.last,
      s.last_trade.bind (fun t => t.price), s.last_trade.bind (fun t => t.p),
      s.day.bind (fun d => d.close), s.day.bind (fun d => d.c),
      s.last_quote.bind (fun q => q.bid), s.last_quote.bind (fun q => q.bid_price),
      s.last_quote.bind (fun q => q.ask), s.last_quote.bind (fun q => q.ask_price),
      s.last_quote.bind (fun q => q.mid), s.last_quote.bind (fun q => q.midpoint)]

/-- A `MassiveDaySnapshot` (`row.day`) viewed as a price snapshot: only the
scalar base fields exist on it. -/
def daySnapshotOf (day : Option DayObj) : Option PriceSnapshot :=
  day.map (fun d => ⟨d.price, d.last_price, d.close, d.day_close, d.c, d.last,
    none, none, none⟩)

/-- `pickUnderlyingFromRow` (route.ts first pipeline):
`pickUnderlyingPrice(row.underlying_asset) ?? pickUnderlyingPrice(row.day ?? null)`. -/
def pickUnderlyingFromRowRt (row : MassiveOptionRow) : Option ℚ :=
  match pickUnderlyingPriceRt row.underlying_asset with
  | some p => some p
  | none => pickUnderlyingPriceRt (daySnapshotOf row.day)

/-- Outcome of one `fetch` of an options-chain page: a non-ok HTTP response
with its status and body text, or a parsed JSON page. -/
inductive FetchOutcome where
  | failure (status : Nat) (body : String)
  | success (resp : MassiveResponse)

/-- The `pageRows.forEach` body (route.ts:185-197): non-call rows are skipped;
while the underlying price is unresolved each call row may resolve it; call
rows are appended in order. -/
def accumulatePageRows : List MassiveOptionRow → Option ℚ → List MassiveOptionRow →
    List MassiveOptionRow × Option ℚ
  | [], up, acc => (acc, up)
  | r :: rest, up, acc =>
    if isCallRow r then
      let up' :=
        match up with
        | some p => some p
        | none => pickUnderlyingFromRowRt r
      accumulatePageRows rest up' (acc ++ [r])
    else
      accumulatePageRows rest up acc

/-- Processing of one fetched page (route.ts:176-197): try the page-level
`underlying_asset` snapshot while the price is unresolved, then fold the
call rows in. -/
def pageStep (resp : MassiveResponse) (acc : List MassiveOptionRow) (up : Option ℚ) :
    List MassiveOptionRow × Option ℚ :=
  let up1 :=
    match up with
    | some p => some p
    | none => pickUnderlyingPriceRt resp.underlying_asset
  accumulatePageRows (resp.results.getD []) up1 acc

/-- Cursor update (route.ts:199-208): a falsy `next_url` ends pagination; a
truthy one is parsed with `new URL(...)` inside `try`/`catch`, an unparsable
value (`parseUrl _ = none`) ending pagination instead of raising. -/
def nextCursor (parseUrl : String → Option String) (resp : MassiveResponse) : Option String :=
  match resp.next_url with
  | some s => if s = "" then none else parseUrl s
  | none => none

/-- `MAX_PAGES` (route.ts:54). -/
def MAX_PAGES : Nat := 15

/-- The pagination loop (route.ts:158-209), parameterised by the server
behaviour `fetch` and the URL parser.  Returns the accumulated call rows and
resolved underlying price, or the first upstream failure's status and body;
the second component counts pages actually fetched. -/
def paginateLoop (fetch : String → FetchOutcome) (parseUrl : String → Option String) :
    Nat → Option String → List MassiveOptionRow → Option ℚ → Nat →
    Except (Nat × String) (List MassiveOptionRow × Option ℚ) × Nat
  | 0, _, acc, up, n => (Except.ok (acc, up), n)
  | _ + 1, none, acc, up, n => (Except.ok (acc, up), n)
  | fuel + 1, some url, acc, up, n =>
    match fetch url with
    | FetchOutcome.failure s b => (Except.error (s, b), n + 1)
    | FetchOutcome.success resp =>
      let st := pageStep resp acc up
      paginateLoop fetch parseUrl fuel (nextCursor parseUrl resp) st.1 st.2 (n + 1)

/-- Entry point of the pagination (`page = 0`, the seeded chain URL,
empty accumulator, unresolved underlying price). -/
def paginate (fetch : String → FetchOutcome) (parseUrl : String → Option String)
    (startUrl : String) :
    Except (Nat × String) (List MassiveOptionRow × Option ℚ) × Nat :=
  paginateLoop fetch parseUrl MAX_PAGES (some startUrl) [] none 0

/-- Shape of an error payload returned to the caller
(`NextResponse.json({message, statusCode, details}, {status})`). -/
structure ErrorResponse where
  httpStatus : Nat
  message : String
  statusCode : Option Nat
  details : Option String
deriving DecidableEq

/-- The 502 response built for a non-ok upstream page response
(route.ts:164-174): the upstream status and body are embedded; the payload
carries no contract data. -/
def chainErrorResponse (s : Nat) (b : String) : ErrorResponse :=
  { httpStatus := 502, message := "Failed to fetch Massive snapshot",
    statusCode := some s, details := some b }

/-- The chain-fetch stage of the legacy `GET` handler: pagination result
mapped to either the 502 error response or the accumulated rows. -/
def runChainLegacy (fetch : String → FetchOutcome) (parseUrl : String → Option String)
    (startUrl : String) :
    Except ErrorResponse (List MassiveOptionRow × Option ℚ) × Nat :=
  match paginate fetch parseUrl startUrl with
  | (Except.error (s, b), n) => (Except.error (chainErrorResponse s b), n)
  | (Except.ok res, n) => (Except.ok res, n)

/-- With no cursor, the loop stops without fetching. -/
theorem paginateLoop_none (fetch : String → FetchOutcome) (parseUrl : String → Option String)
    (fuel : Nat) (acc : List MassiveOptionRow) (up : Option ℚ) (n : Nat) :
    paginateLoop fetch parseUrl fuel none acc up n = (Except.ok (acc, up), n) := by
  cases fuel <;> rfl

/-- The loop fetches at most `fuel` more pages. -/
theorem paginateLoop_count_le (fetch : String → FetchOutcome)
    (parseUrl : String → Option String) :
    ∀ fuel cur acc up n, (paginateLoop fetch parseUrl fuel cur acc up n).2 ≤ n + fuel := by
  intro fuel
  induction fuel with
  | zero =>
    intro cur acc up n
    simp [paginateLoop]
  | succ fuel ih =>
    intro cur acc up n
    cases cur with
    | none =>
      rw [paginateLoop_none]
      omega
    | some url =>
      cases hf : fetch url with
      | failure s b =>
        simp only [paginateLoop, hf]
        omega
      | success resp =>
        simp only [paginateLoop, hf]
        have := ih (nextCursor parseUrl resp) (pageStep resp acc up).1
          (pageStep resp acc up).2 (n + 1)
        omega

/-- A fetch failure aborts the loop at once. -/
theorem paginateLoop_failure (fetch : String → FetchOutcome)
    (parseUrl : String → Option String) {url : String} {s : Nat} {b : String}
    (hf : fetch url = FetchOutcome.failure s b) (fuel : Nat)
    (acc : List MassiveOptionRow) (up : Option ℚ) (n : Nat) :
    paginateLoop fetch parseUrl (fuel + 1) (some url) acc up n =
      (Except.error (s, b), n + 1) := by
  simp [paginateLoop, hf]

/-- A server that keeps returning a cursor for 20 pages ("page i" links to
"page i+1" for i+1 < 20). -/
def twentyPageServer : String → FetchOutcome := fun url =>
  match url.toNat? with
  | some i =>
    FetchOutcome.success ⟨some [], if i + 1 < 20 then some (toString (i + 1)) else none, none⟩
  | none => FetchOutcome.success ⟨some [], none, none⟩

/-- C7: pagination fetches pages only while a cursor is present, never
fetches more than `MAX_PAGES = 15` pages for any server behaviour, and on a
simulated 20-page chain exactly 15 pages are fetched. -/
theorem c7_pagination_page_ceiling :
    (∀ (fetch : String → FetchOutcome) (parseUrl : String → Option String)
      (startUrl : String), (paginate fetch parseUrl startUrl).2 ≤ MAX_PAGES) ∧
    (∀ (fetch : String → FetchOutcome) (parseUrl : String → Option String)
      (fuel : Nat) (acc : List MassiveOptionRow) (up : Option ℚ) (n : Nat),
      (paginateLoop fetch parseUrl fuel none acc up n).2 = n) ∧
    (paginate twentyPageServer (fun s => some s) "0").2 = 15 := by
  refine ⟨?_, ?_, ?_⟩
  · intro fetch parseUrl startUrl
    have := paginateLoop_count_le fetch parseUrl MAX_PAGES (some startUrl) [] none 0
    simpa [paginate] using this
  · intro fetch parseUrl fuel acc up n
    rw [paginateLoop_none]
  · with_unfolding_all decide

/-- C8: a page fetch with a non-success HTTP status aborts pagination at once
(the loop ends on that very fetch) and the handler returns the 502 error
response embedding the upstream status code and body; the error payload
carries no contract data (by construction `chainErrorResponse` holds only
message, status code and body). -/
theorem c8_upstream_error_surfaced (fetch : String → FetchOutcome)
    (parseUrl : String → Option String) :
    (∀ (fuel : Nat) (url : String) (acc : List MassiveOptionRow) (up : Option ℚ)
      (n s : Nat) (b : String), fetch url = FetchOutcome.failure s b →
      paginateLoop fetch parseUrl (fuel + 1) (some url) acc up n =
        (Except.error (s, b), n + 1)) ∧
    (∀ (startUrl : String) (s : Nat) (b : String),
      fetch startUrl = FetchOutcome.failure s b →
      runChainLegacy fetch parseUrl startUrl =
        (Except.error (chainErrorResponse s b), 1)) := by
  constructor
  · intro fuel url acc up n s b hf
    exact paginateLoop_failure fetch parseUrl hf fuel acc up n
  · intro startUrl s b hf
    have h1 : paginate fetch parseUrl startUrl = (Except.error (s, b), 1) := by
      show paginateLoop fetch parseUrl (14 + 1) (some startUrl) [] none 0 =
        (Except.error (s, b), 0 + 1)
      exact paginateLoop_failure fetch parseUrl hf 14 [] none 0
    rw [runChainLegacy, h1]

/-- A server whose every page fetch answers HTTP 503. -/
def failingServer : String → FetchOutcome :=
  fun _ => FetchOutcome.failure 503 "service unavailable"

/-- Witness for C8: a 503 page fetch yields the 502 error response with the
upstream status and body embedded, after exactly one fetch. -/
theorem c8_witness :
    runChainLegacy failingServer (fun s => some s) "start" =
      (Except.error
        { httpStatus := 502, message := "Failed to fetch Massive snapshot",
          statusCode := some 503, details := some "service unavailable" }, 1) :=
  (c8_upstream_error_surfaced failingServer (fun s => some s)).2 "start" 503
    "service unavailable" rfl

/-- C9: a successful page whose truthy `next_url` fails to parse as a URL
ends pagination gracefully after that page: the loop returns `Except.ok` with
the page's rows processed into the accumulator (no error response and no
exception), having fetched exactly one more page. -/
theorem c9_unparsable_cursor_graceful (fetch : String → FetchOutcome)
    (parseUrl : String → Option String) :
    ∀ (fuel : Nat) (url : String) (acc : List MassiveOptionRow) (up : Option ℚ)
      (n : Nat) (resp : MassiveResponse) (s : String),
      fetch url = FetchOutcome.success resp → resp.next_url = some s → s ≠ "" →
      parseUrl s = none →
      paginateLoop fetch parseUrl (fuel + 1) (some url) acc up n =
        (Except.ok (pageStep resp acc up), n + 1) := by
  intro fuel url acc up n resp s hf hnext hne hparse
  have hcur : nextCursor parseUrl resp = none := by
    simp [nextCursor, hnext, hne, hparse]
  simp only [paginateLoop, hf, hcur, paginateLoop_none]

/-- A one-page server answering an unparsable cursor value. -/
def badCursorServer : String → FetchOutcome :=
  fun _ => FetchOutcome.success ⟨some [c1Row], some "::not a url::", none⟩

/-- Witness for C9: with an unparsable `next_url`, the single fetched page's
call row is still accumulated and returned (`Except.ok`), no error raised. -/
theorem c9_witness :
    paginateLoop badCursorServer (fun _ => none) 15 (some "start") [] none 0 =
      (Except.ok (pageStep ⟨some [c1Row], some "::not a url::", none⟩ [] none), 1) :=
  c9_unparsable_cursor_graceful badCursorServer (fun _ => none) 14 "start" [] none 0
    ⟨some [c1Row], some "::not a url::", none⟩ "::not a url::" rfl rfl
    (by decide) rfl

/-- `lastTrade` object of a stock-quote response (`p` = price). -/
structure QuoteLastTrade where
  p : Option JsVal
deriving DecidableEq

/-- `day` / `prevDay` object of a stock-quote response (`c` = close; the
other OHLCV fields are not read by the resolver). -/
structure QuoteDay where
  c : Option JsVal
deriving DecidableEq

/-- `ticker` sub-object of `MassiveQuoteResponse`. -/
structure QuoteTickerSnapshot where
  day : QuoteDay
  lastTrade : QuoteLastTrade
  prevDay : QuoteDay
deriving DecidableEq

/-- `MassiveQuoteResponse` (route.ts:338-358): the quote payload of the
dedicated per-ticker stock endpoint. -/
structure MassiveQuoteResponse where
  ticker : Option QuoteTickerSnapshot
deriving DecidableEq

/-- The candidate scan of `getUnderlyingSpotFromQuote`: first candidate that
parses to a strictly positive number. -/
def firstPositiveNumber : List (Option JsVal) → Option ℚ
  | [] => none
  | v :: rest =>
    match parseNumber v with
    | some p => if 0 < p then some p else firstPositiveNumber rest
    | none => firstPositiveNumber rest

/-- `getUnderlyingSpotFromQuote` (route.ts:398-421): last-trade price, then
today's close, then the previous day's close; a candidate must parse and be
strictly positive. -/
def getUnderlyingSpotFromQuote (quote : MassiveQuoteResponse) : Option ℚ :=
  match quote.ticker with
  | none => none
  | some t => firstPositiveNumber [t.lastTrade.p, t.day.c, t.prevDay.c]

/-- Outcome of the single stock-quote fetch. -/
inductive QuoteFetchOutcome where
  | failure (status : Nat) (body : String)
  | success (resp : MassiveQuoteResponse)

/-- `fetchUnderlyingQuote` (route.ts:423-441): a non-ok quote response is
logged and yields `null`; otherwise the quote resolver runs on the JSON. -/
def fetchUnderlyingQuote : QuoteFetchOutcome → Option ℚ
  | QuoteFetchOutcome.failure _ _ => none
  | QuoteFetchOutcome.success resp => getUnderlyingSpotFromQuote resp

/-- Pagination error of the quote-first chain loop: an upstream HTTP failure,
or the `TypeError` thrown by `new URL(json.next_url)` (route.ts:497 has no
`try`/`catch`). -/
inductive QFPagError where
  | http (status : Nat) (body : String)
  | urlException
deriving DecidableEq

/-- The quote-first chain pagination loop (route.ts:480-499): call rows are
filtered per page; no underlying-price tracking; an unparsable truthy
`next_url` propagates as an exception. -/
def paginateQFLoop (fetch : String → FetchOutcome) (parseUrl : String → Option String) :
    Nat → Option String → List MassiveOptionRow → Nat →
    Except QFPagError (List MassiveOptionRow) × Nat
  | 0, _, acc, n => (Except.ok acc, n)
  | _ + 1, none, acc, n => (Except.ok acc, n)
  | fuel + 1, some url, acc, n =>
    match fetch url with
    | FetchOutcome.failure s b => (Except.error (QFPagError.http s b), n + 1)
    | FetchOutcome.success resp =>
      let acc' := acc ++ (resp.results.getD []).filter isCallRow
      match resp.next_url with
      | some s =>
        if s = "" then paginateQFLoop fetch parseUrl fuel none acc' (n + 1)
        else
          match parseUrl s with
          | some u => paginateQFLoop fetch parseUrl fuel (some u) acc' (n + 1)
          | none => (Except.error QFPagError.urlException, n + 1)
      | none => paginateQFLoop fetch parseUrl fuel none acc' (n + 1)

/-- The 502 response built for a non-ok chain page in the quote-first
pipeline (route.ts:484-491). -/
def qfChainErrorResponse (s : Nat) (b : String) : ErrorResponse :=
  { httpStatus := 502, message := "Failed to fetch options chain snapshot",
    statusCode := some s, details := some b }

/-- Result of the quote-first `GET` handler, after ticker and API-key
validation: the 404 when no spot is resolved, the 502 chain error, an
uncaught exception, or the success payload. -/
inductive QFResult where
  | notFound (httpStatus : Nat) (message : String)
  | errorResp (e : ErrorResponse)
  | exception
  | payload (underlyingSpot : ℚ) (expirations : List String) (options : List OptionPoint)

/-- The quote-first `GET` pipeline (route.ts:443-592) from the spot-quote step
onward, paired with the number of options-chain pages fetched: a missing spot
returns 404 before any chain fetch; otherwise the chain is paginated and the
rows are selected and valued with the strict (`premium < 0` discarding)
valuation at the resolved spot. -/
def quoteFirstGET (qo : QuoteFetchOutcome) (chainFetch : String → FetchOutcome)
    (parseUrl : String → Option String) (startUrl reqTicker today : String) :
    QFResult × Nat :=
  match fetchUnderlyingQuote qo with
  | none =>
    (QFResult.notFound 404 ("Could not retrieve underlying stock quote for " ++ reqTicker ++
      ". The symbol may be invalid."), 0)
  | some spot =>
    match paginateQFLoop chainFetch parseUrl MAX_PAGES (some startUrl) [] 0 with
    | (Except.error (QFPagError.http s b), n) => (QFResult.errorResp (qfChainErrorResponse s b), n)
    | (Except.error QFPagError.urlException, n) => (QFResult.exception, n)
    | (Except.ok rows, n) =>
      (QFResult.payload spot (validExpirations rows today)
        ((selectedRows rows today).filterMap (valuateRowQF reqTicker spot)), n)

/-- Whatever `firstPositiveNumber` returns is strictly positive. -/
theorem firstPositiveNumber_pos :
    ∀ (l : List (Option JsVal)) (p : ℚ), firstPositiveNumber l = some p → 0 < p := by
  intro l
  induction l with
  | nil => intro p h; exact absurd h (by simp [firstPositiveNumber])
  | cons v rest ih =>
    intro p h
    unfold firstPositiveNumber at h
    cases hv : parseNumber v with
    | none =>
      simp only [hv] at h
      exact ih p h
    | some q =>
      simp only [hv] at h
      by_cases hq : 0 < q
      · rw [if_pos hq] at h
        exact (Option.some.inj h) ▸ hq
      · rw [if_neg hq] at h
        exact ih p h

/-- A resolved quote spot is strictly positive. -/
theorem fetchUnderlyingQuote_pos {qo : QuoteFetchOutcome} {p : ℚ}
    (h : fetchUnderlyingQuote qo = some p) : 0 < p := by
  cases qo with
  | failure s b => exact absurd h (by simp [fetchUnderlyingQuote])
  | success resp =>
    simp only [fetchUnderlyingQuote, getUnderlyingSpotFromQuote] at h
    cases ht : resp.ticker with
    | none => simp [ht] at h
    | some t =>
      simp only [ht] at h
      exact firstPositiveNumber_pos _ p h

/-- C10: in the quote-first pipeline, when the dedicated stock-quote step
yields no parseable strictly-positive spot (in particular whenever the quote
request itself fails) the handler returns the 404 error without fetching a
single options-chain page; and every successful payload carries a strictly
positive spot — no degraded spot-0 response with options data exists. -/
theorem c10_quote_first_guard (qo : QuoteFetchOutcome)
    (chainFetch : String → FetchOutcome) (parseUrl : String → Option String)
    (startUrl reqTicker today : String) :
    (fetchUnderlyingQuote qo = none →
      quoteFirstGET qo chainFetch parseUrl startUrl reqTicker today =
        (QFResult.notFound 404 ("Could not retrieve underlying stock quote for " ++
          reqTicker ++ ". The symbol may be invalid."), 0)) ∧
    (∀ (s : Nat) (b : String), qo = QuoteFetchOutcome.failure s b →
      fetchUnderlyingQuote qo = none) ∧
    (∀ (spot : ℚ) (exps : List String) (opts : List OptionPoint) (n : Nat),
      quoteFirstGET qo chainFetch parseUrl startUrl reqTicker today =
        (QFResult.payload spot exps opts, n) → 0 < spot) := by
  refine ⟨?_, ?_, ?_⟩
  · intro h
    simp [quoteFirstGET, h]
  · intro s b h
    subst h
    rfl
  · intro spot exps opts n h
    cases hq : fetchUnderlyingQuote qo with
    | none => simp [quoteFirstGET, hq] at h
    | some spot0 =>
      have hpos := fetchUnderlyingQuote_pos hq
      simp only [quoteFirstGET, hq] at h
      rcases hp : paginateQFLoop chainFetch parseUrl MAX_PAGES (some startUrl) [] 0 with ⟨res, n'⟩
      simp only [hp] at h
      rcases res with e | rows
      · rcases e with ⟨s', b'⟩ | _
        · simp at h
        · simp at h
      · simp only [Prod.mk.injEq, QFResult.payload.injEq] at h
        obtain ⟨⟨hspot, _, _⟩, _⟩ := h
        rw [← hspot]
        exact hpos

/-- A chain server never consulted in the C10 witness scenario. -/
def idleChainServer : String → FetchOutcome :=
  fun _ => FetchOutcome.success ⟨some [], none, none⟩

/-- Witness for C10: a failed (HTTP 500) stock-quote request produces the 404
response with zero options-chain pages fetched. -/
theorem c10_witness :
    quoteFirstGET (QuoteFetchOutcome.failure 500 "boom") idleChainServer
      (fun s => some s) "start" "AAPL" "2026-01-01" =
      (QFResult.notFound 404
        "Could not retrieve underlying stock quote for AAPL. The symbol may be invalid.", 0) :=
  (c10_quote_first_guard (QuoteFetchOutcome.failure 500 "boom") idleChainServer
    (fun s => some s) "start" "AAPL" "2026-01-01").1
    ((c10_quote_first_guard (QuoteFetchOutcome.failure 500 "boom") idleChainServer
      (fun s => some s) "start" "AAPL" "2026-01-01").2.1 500 "boom" rfl)
